import Mathlib

/-
Verification development for the KC-New-Restaurants core subsystems:
the dual-backend record store (src/services/database_manager.py), the
similarity-based rating predictor (src/services/ai_predictor.py) and the
display grading table (src/ml/grading.py).

The Python code is shallowly embedded:
  * dictionaries become association lists over a small value type `Val`;
  * machine floats become ℝ (predictor, which uses sqrt/cos) or ℚ
    (grade tables, which only compare against constants);
  * calls to external systems (the MongoDB server, the sqlite3 engine's
    row storage) are modelled by explicit state or by oracle parameters,
    while all decision logic written in the repository itself is
    translated line by line;
  * in-place mutation of Python dicts is modelled with an explicit heap
    (a list of documents addressed by index), so that aliasing facts such
    as "the caller's dict is not mutated" are expressible.
-/

/-! ## Value model

`Val` models the primitive Python/JSON values that flow through the
database layer: `None`, `bool`, `int`, `float`, `str`.  Structured values
(dicts/lists stored in the JSON columns) are opaque to every claim we
check, so they are not given dedicated constructors; the JSON
serialization function is threaded as a parameter `dumps` instead. -/

inductive Val where
  | null : Val
  | bool (b : Bool) : Val
  | int (n : ℤ) : Val
  | real (q : ℚ) : Val
  | str (s : String) : Val
deriving DecidableEq

/-- Python truthiness of a primitive value (`if op_value:` in the source). -/
def pyTruthyVal : Val → Bool
  | Val.null => false
  | Val.bool b => b
  | Val.int n => decide (n ≠ 0)
  | Val.real q => decide (q ≠ 0)
  | Val.str s => !(s == "")

/-- sqlite3 parameter binding: Python `True`/`False` bind as the integers
`1`/`0`; other primitives bind as themselves. -/
def bindVal : Val → Val
  | Val.bool b => Val.int (if b then 1 else 0)
  | v => v

/-- Numeric view of a stored SQL value (INTEGER and REAL compare
numerically in SQLite). -/
def Val.toNum : Val → Option ℚ
  | Val.int n => some (n : ℚ)
  | Val.real q => some q
  | _ => none

/-- SQL equality between two non-NULL stored values (numeric affinity:
an INTEGER equals the REAL with the same value). -/
def sqlEq (a b : Val) : Bool :=
  match a.toNum, b.toNum with
  | some x, some y => decide (x = y)
  | _, _ => decide (a = b)

/-- SQLite cross-type ordering rank: NULL < numeric < text. -/
def Val.typeRank : Val → ℕ
  | Val.null => 0
  | Val.bool _ => 1
  | Val.int _ => 1
  | Val.real _ => 1
  | Val.str _ => 2

/-- SQL strict ordering of stored values (numerics numerically, text
lexicographically, otherwise by type rank). -/
def sqlLt (a b : Val) : Bool :=
  match a.toNum, b.toNum with
  | some x, some y => decide (x < y)
  | _, _ =>
    match a, b with
    | Val.str s, Val.str t => decide (s < t)
    | _, _ => decide (a.typeRank < b.typeRank)

/-! ## Documents (Python dicts) -/

/-- A Python dict with primitive values, in insertion order. -/
abbrev Document := List (String × Val)

/-- `d.get(k)` / `d[k]`: first binding of the key, if any. -/
def dictGet (d : Document) (k : String) : Option Val :=
  (d.find? (fun p => p.1 == k)).map (fun p => p.2)

/-- `k in d`. -/
def dictContains (d : Document) (k : String) : Bool :=
  d.any (fun p => p.1 == k)

/-- `d[k] = v`: replace in place if the key exists (keeping its position),
otherwise append — Python dict assignment order semantics. -/
def dictSet (d : Document) (k : String) (v : Val) : Document :=
  if d.any (fun p => p.1 == k) then
    d.map (fun p => if p.1 == k then (k, v) else p)
  else
    d ++ [(k, v)]

/-! ## SQLite rows -/

/-- A row of the `food_businesses` table: the columns that were written,
with every absent column implicitly NULL (`rowGet` defaults to NULL). -/
abbrev SqliteRow := List (String × Val)

/-- Read a column of a row; columns never written are NULL. -/
def rowGet (r : SqliteRow) (c : String) : Val :=
  ((r.find? (fun p => p.1 == c)).map (fun p => p.2)).getD Val.null

/-! ## The relational filter engine
(`DatabaseManager._find_sqlite_documents`, database_manager.py 376-447)

The source builds a SQL WHERE clause from a MongoDB-style query dict.
We represent each generated `where_parts` entry as a `SqlCond` and give
it the SQL evaluation semantics the sqlite engine applies to it. -/

/-- A query value is either a plain value or a dict of operators. -/
inductive QVal where
  | plain (v : Val) : QVal
  | ops (l : List (String × Val)) : QVal
deriving DecidableEq

/-- A MongoDB-style query dict. -/
abbrev Query := List (String × QVal)

/-- One generated `where_parts` entry. `condNe f v` stands for the
composite condition `(f IS NULL OR f != ?)` the source emits for a
non-null `$ne` operand. -/
inductive SqlCond where
  | condIsNull (field : String) : SqlCond
  | condIsNotNull (field : String) : SqlCond
  | condNe (field : String) (v : Val) : SqlCond
  | condGe (field : String) (v : Val) : SqlCond
  | condLe (field : String) (v : Val) : SqlCond
  | condGt (field : String) (v : Val) : SqlCond
  | condLt (field : String) (v : Val) : SqlCond
  | condEq (field : String) (v : Val) : SqlCond
deriving DecidableEq

/-- Conditions generated for one operator of a `{field: {op: value}}`
entry (database_manager.py 391-414); unknown operators are ignored.
Operator operands are appended to `params` and bound by
`cursor.execute`, so they go through sqlite3 parameter binding
(`bindVal`): a Python bool operand reaches the engine as the integer
1/0. -/
def condsForOp (field : String) (op : String) (v : Val) : List SqlCond :=
  if op == "$exists" then
    if pyTruthyVal v then [SqlCond.condIsNotNull field] else [SqlCond.condIsNull field]
  else if op == "$ne" then
    match v with
    | Val.null => [SqlCond.condIsNotNull field]
    | v => [SqlCond.condNe field (bindVal v)]
  else if op == "$gte" then [SqlCond.condGe field (bindVal v)]
  else if op == "$lte" then [SqlCond.condLe field (bindVal v)]
  else if op == "$gt" then [SqlCond.condGt field (bindVal v)]
  else if op == "$lt" then [SqlCond.condLt field (bindVal v)]
  else []

/-- Conditions generated for one query entry (database_manager.py
384-417).  A plain `bool` always becomes an integer equality: the
`deleted` special case converts explicitly, and any other bool passes the
`isinstance(value, (str, int, float))` test (Python bools are ints) and
is converted by sqlite3 parameter binding.  A plain `None` generates no
condition; plain str/int/float generate an equality. -/
def condsForEntry (field : String) (v : QVal) : List SqlCond :=
  match v with
  | QVal.ops l => l.flatMap (fun p => condsForOp field p.1 p.2)
  | QVal.plain Val.null => []
  | QVal.plain v => [SqlCond.condEq field (bindVal v)]

/-- All WHERE conditions generated for a query, in source order. -/
def findWhereConds (query : Query) : List SqlCond :=
  query.flatMap (fun p => condsForEntry p.1 p.2)

/-- SQL evaluation of one generated condition against a row.  A NULL
column (or NULL bound parameter) makes every plain comparison non-true;
`condNe` is the composite `(f IS NULL OR f != ?)`. -/
def evalCond (row : SqliteRow) : SqlCond → Bool
  | SqlCond.condIsNull f => rowGet row f == Val.null
  | SqlCond.condIsNotNull f => !(rowGet row f == Val.null)
  | SqlCond.condNe f v =>
      rowGet row f == Val.null || !(sqlEq (rowGet row f) v)
  | SqlCond.condGe f v =>
      !(rowGet row f == Val.null) && !(v == Val.null) &&
        (sqlLt v (rowGet row f) || sqlEq (rowGet row f) v)
  | SqlCond.condLe f v =>
      !(rowGet row f == Val.null) && !(v == Val.null) &&
        (sqlLt (rowGet row f) v || sqlEq (rowGet row f) v)
  | SqlCond.condGt f v =>
      !(rowGet row f == Val.null) && !(v == Val.null) && sqlLt v (rowGet row f)
  | SqlCond.condLt f v =>
      !(rowGet row f == Val.null) && !(v == Val.null) && sqlLt (rowGet row f) v
  | SqlCond.condEq f v =>
      !(rowGet row f == Val.null) && !(v == Val.null) && sqlEq (rowGet row f) v

/-- `_find_sqlite_documents`: rows satisfying every generated condition,
truncated when `limit > 0`.  (The source then converts each row to a dict
and re-parses the JSON text columns; that per-row conversion does not
change which rows are selected, which is all the claims quantify over.) -/
def findSqliteDocuments (tbl : List SqliteRow) (query : Query) (limit : ℕ) :
    List SqliteRow :=
  let conds := findWhereConds query
  let rows := tbl.filter (fun row => conds.all (fun c => evalCond row c))
  if limit > 0 then rows.take limit else rows

/-! ## `find_documents` backend selection
(`DatabaseManager.find_documents`, database_manager.py 342-374)

The two backend calls are external effects (a MongoDB server query and a
sqlite3 cursor execution), so they enter the embedding as oracle
functions returning `Except Unit (List Document)`: `Except.error ()` is a
raised exception, which the source catches and logs. -/

def findDocuments (query : Query) (limit : ℕ)
    (mongodbAvailable : Bool)
    (mongoFind : Query → ℕ → Except Unit (List Document))
    (sqliteAvailable : Bool)
    (sqliteFind : Query → ℕ → Except Unit (List Document)) :
    List Document :=
  match mongodbAvailable, mongoFind query limit with
  | true, Except.ok docs => docs
  | _, _ =>
    match sqliteAvailable, sqliteFind query limit with
    | true, Except.ok docs => docs
    | _, _ => []

/-! ## `delete_many` count combination
(`DatabaseManager.delete_many`, database_manager.py 491-544)

Each backend's deletion is an external effect; what the repository's code
decides is how the two per-backend counts combine into the returned
`deleted_count`.  The oracle results are again `Except`-valued. -/

def deleteManyCount (mongodbAvailable : Bool) (mongoDeleted : Except Unit ℕ)
    (sqliteAvailable : Bool) (sqliteDeleted : Except Unit ℕ) : ℕ :=
  let deletedCount := if mongodbAvailable then
      match mongoDeleted with
      | Except.ok n => n
      | Except.error _ => 0
    else 0
  if sqliteAvailable then
    match sqliteDeleted with
    | Except.ok s => if s > 0 then s else deletedCount
    | Except.error _ => deletedCount
  else deletedCount

/-! ## Grade tables

`RestaurantAIPredictor.predict_grade` (ai_predictor.py 258-279) and the
display table `rating_to_grade` (src/ml/grading.py 9-59).  Ratings only
ever get compared against constant thresholds here, so ℚ is an exact
model of the float comparisons. -/

def predictGrade (rating : ℚ) : String :=
  if rating ≥ 4.5 then "A+"
  else if rating ≥ 4.2 then "A"
  else if rating ≥ 3.8 then "A-"
  else if rating ≥ 3.5 then "B+"
  else if rating ≥ 3.2 then "B"
  else if rating ≥ 2.8 then "B-"
  else if rating ≥ 2.5 then "C+"
  else if rating ≥ 2.0 then "C"
  else if rating ≥ 1.5 then "C-"
  else "D"

def rating_to_grade : Option ℚ → Option String
  | none => none
  | some rating0 =>
    let rating := max 0.0 (min 5.0 rating0)
    some (if rating ≥ 4.6 then "A+"
      else if rating ≥ 4.4 then "A"
      else if rating ≥ 4.2 then "A-"
      else if rating ≥ 4.0 then "B+"
      else if rating ≥ 3.8 then "B"
      else if rating ≥ 3.6 then "B-"
      else if rating ≥ 3.4 then "C+"
      else if rating ≥ 3.2 then "C"
      else if rating ≥ 3.0 then "C-"
      else if rating ≥ 2.5 then "D"
      else "F")

/-! ## Heap of dict objects

Python dicts are mutable heap objects.  To state aliasing facts (claim
about `insert_document` not mutating its caller's dict) mutation is made
explicit: a heap is a list of documents, a reference is an index,
`document.copy()` allocates a fresh object with the same value. -/

abbrev Heap := List Document

def readRef (h : Heap) (r : ℕ) : Document := h.getD r []

def writeRef (h : Heap) (r : ℕ) (d : Document) : Heap := h.set r d

def allocRef (h : Heap) (d : Document) : Heap × ℕ := (h ++ [d], h.length)

/-- `document.copy()`: allocate a fresh dict with the same contents. -/
def pyCopy (h : Heap) (r : ℕ) : Heap × ℕ := allocRef h (readRef h r)

/-! ## The document backend's insert
(`self.mongo_collection.insert_one(document.copy())`,
database_manager.py 238)

`DatabaseManager._initialize_mongodb` (lines 49-88) opens the collection
and creates no index on it, so the modelled server behavior of
`insert_one` is the plain one: generate an `_id` if the document lacks
one (mutating the passed dict), then append the document to the
collection.  `_id` generation is modelled by a counter. -/

def mongoInsertOne (counter : ℕ) (col : List Document) (h : Heap) (r : ℕ) :
    ℕ × List Document × Heap × Bool :=
  let d := readRef h r
  if dictContains d "_id" then (counter, col ++ [d], h, true)
  else
    let d2 := dictSet d "_id" (Val.int (counter : ℤ))
    (counter + 1, col ++ [d2], writeRef h r d2, true)

/-! ## The relational backend's insert
(`DatabaseManager._insert_sqlite_document`, database_manager.py 256-333) -/

/-- The four columns stored as serialized JSON text. -/
def jsonFields : List String :=
  ["business_hours", "sentiment_distribution", "review_keywords",
   "api_fields_retrieved"]

/-- `field_mapping` from database_manager.py 274-316: document field →
SQLite column (`none` = skipped, as for the MongoDB `_id`). -/
def fieldMapping : List (String × Option String) :=
  [("_id", none),
   ("business_name", some "business_name"),
   ("dba_name", some "dba_name"),
   ("address", some "address"),
   ("business_type", some "business_type"),
   ("valid_license_for", some "valid_license_for"),
   ("insert_date", some "insert_date"),
   ("deleted", some "deleted"),
   ("google_place_id", some "google_place_id"),
   ("google_rating", some "google_rating"),
   ("google_user_ratings_total", some "google_user_ratings_total"),
   ("google_formatted_address", some "google_formatted_address"),
   ("google_name", some "google_name"),
   ("cuisine_type", some "cuisine_type"),
   ("price_level", some "price_level"),
   ("latitude", some "latitude"),
   ("longitude", some "longitude"),
   ("outdoor_seating", some "outdoor_seating"),
   ("takeout_available", some "takeout_available"),
   ("delivery_available", some "delivery_available"),
   ("reservations_accepted", some "reservations_accepted"),
   ("wheelchair_accessible", some "wheelchair_accessible"),
   ("good_for_children", some "good_for_children"),
   ("serves_alcohol", some "serves_alcohol"),
   ("parking_available", some "parking_available"),
   ("business_hours", some "business_hours"),
   ("sentiment_avg", some "sentiment_avg"),
   ("sentiment_distribution", some "sentiment_distribution"),
   ("review_keywords", some "review_keywords"),
   ("sentiment_summary", some "sentiment_summary"),
   ("review_summary", some "review_summary"),
   ("ai_predicted_rating", some "ai_predicted_rating"),
   ("ai_predicted_grade", some "ai_predicted_grade"),
   ("ai_prediction_confidence", some "ai_prediction_confidence"),
   ("ai_confidence_percentage", some "ai_confidence_percentage"),
   ("ai_confidence_level", some "ai_confidence_level"),
   ("ai_similar_restaurants_count", some "ai_similar_restaurants_count"),
   ("ai_prediction_explanation", some "ai_prediction_explanation"),
   ("enriched_date", some "enriched_date"),
   ("api_fields_retrieved", some "api_fields_retrieved"),
   ("last_updated", some "last_updated")]

/-- Conflict of two rows under the table's `UNIQUE(business_name,
address)` constraint (database_manager.py 176): both columns equal with
no NULL involved (SQL UNIQUE never treats NULLs as equal). -/
def sqliteUniqueConflict (r1 r2 : SqliteRow) : Bool :=
  sqlEq (rowGet r1 "business_name") (rowGet r2 "business_name") &&
  !(rowGet r1 "business_name" == Val.null) &&
  sqlEq (rowGet r1 "address") (rowGet r2 "address") &&
  !(rowGet r1 "address" == Val.null)

/-- One iteration of the JSON-serialization loop (database_manager.py
264-266): `doc[field] = json.dumps(doc[field])` on the working copy at
heap address `d`, when the field is present and not `None`. -/
def jsonSerializeStep (dumps : Val → String) (d : ℕ) (hh : Heap)
    (f : String) : Heap :=
  let doc := readRef hh d
  if dictContains doc f && !(dictGet doc f == some Val.null) then
    writeRef hh d
      (dictSet doc f (Val.str (dumps ((dictGet doc f).getD Val.null))))
  else hh

/-- The `columns`/`values` lists built from `field_mapping`
(database_manager.py 318-322), as column-value pairs. -/
def sqliteColVals (doc : Document) : List (String × Val) :=
  fieldMapping.filterMap (fun p =>
    match p.2 with
    | some dbField =>
        if dictContains doc p.1 then
          some (dbField, bindVal ((dictGet doc p.1).getD Val.null))
        else none
    | none => none)

/-- The row as stored by the engine: columns absent from the INSERT take
their schema defaults — `deleted` has DEFAULT 0 (database_manager.py
123), every other absent column is NULL (which `rowGet` already yields). -/
def sqliteRowWithDefaults (colvals : List (String × Val)) : SqliteRow :=
  if colvals.any (fun c => c.1 == "deleted") then colvals
  else colvals ++ [("deleted", Val.int 0)]

/-- `_insert_sqlite_document`: copy the dict, serialize the JSON fields
in place on the copy, build the column/value lists in `field_mapping`
order, and run `INSERT OR REPLACE`.  REPLACE deletes every row
conflicting with the new one under a unique constraint, then inserts;
a NULL (or missing) `business_name` violates NOT NULL, which raises —
modelled as a failed insert with the table unchanged (the caller catches
the exception). -/
def insertSqliteDocument (dumps : Val → String) (h : Heap)
    (tbl : List SqliteRow) (docRef : ℕ) : Heap × List SqliteRow × Bool :=
  let hd := pyCopy h docRef
  let h1 := hd.1
  let d := hd.2
  let h2 := jsonFields.foldl (jsonSerializeStep dumps d) h1
  let doc := readRef h2 d
  let colvals := sqliteColVals doc
  if colvals = [] then (h2, tbl, false)
  else
    let row := sqliteRowWithDefaults colvals
    if rowGet row "business_name" == Val.null then (h2, tbl, false)
    else
      (h2, (tbl.filter (fun r0 => !(sqliteUniqueConflict r0 row))) ++ [row],
        true)

/-! ## `insert_document`
(`DatabaseManager.insert_document`, database_manager.py 222-254) -/

structure DBState where
  mongodb_available : Bool
  mongo_collection : List Document
  sqlite_available : Bool
  sqlite_table : List SqliteRow
  oid_counter : ℕ

/-- The document-backend block of `insert_document` (database_manager.py
236-243): when the backend is reachable, call `insert_one` on a copy of
the caller's dict. -/
def mongoStep (st : DBState) (h : Heap) (docRef : ℕ) :
    DBState × Heap × Bool :=
  if st.mongodb_available then
    let hc := pyCopy h docRef
    let res := mongoInsertOne st.oid_counter st.mongo_collection hc.1 hc.2
    ({ st with mongo_collection := res.2.1, oid_counter := res.1 },
      res.2.2.1, res.2.2.2)
  else (st, h, false)

/-- The relational-backend block of `insert_document` (database_manager.py
246-252): when the backend is reachable, run `_insert_sqlite_document` on
the caller's dict (which itself copies before mutating). -/
def sqliteStep (dumps : Val → String) (st : DBState) (h : Heap)
    (docRef : ℕ) : DBState × Heap × Bool :=
  if st.sqlite_available then
    let res := insertSqliteDocument dumps h st.sqlite_table docRef
    ({ st with sqlite_table := res.2.1 }, res.1, res.2.2)
  else (st, h, false)

/-- Insert a document into both backends.  The document backend receives
`document.copy()`; the relational insert copies internally.  Returns the
new state, the final heap, and `success_mongo or success_sqlite`. -/
def insertDocument (dumps : Val → String) (st : DBState) (h : Heap)
    (docRef : ℕ) : DBState × Heap × Bool :=
  let m := mongoStep st h docRef
  let s := sqliteStep dumps m.1 m.2.1 docRef
  (s.1, s.2.1, m.2.2 || s.2.2)

/-- A sequence of `insert_document` calls, each on a fresh caller dict
(heap containing just that dict). -/
def insertDocs (dumps : Val → String) (st : DBState) (ds : List Document) :
    DBState :=
  ds.foldl (fun s d => (insertDocument dumps s [d] 0).1) st

/-- The initial state: both backends reachable and empty. -/
def initialDBState : DBState :=
  { mongodb_available := true, mongo_collection := [],
    sqlite_available := true, sqlite_table := [], oid_counter := 0 }

/-- A document-backend record that is live (not soft-deleted) and carries
the given `(business_name, address, business_type)` key. -/
def liveDocWithKey (doc : Document) (bn addr bt : String) : Bool :=
  dictGet doc "business_name" == some (Val.str bn) &&
  dictGet doc "address" == some (Val.str addr) &&
  dictGet doc "business_type" == some (Val.str bt) &&
  !(dictGet doc "deleted" == some (Val.bool true)) &&
  !(dictGet doc "deleted" == some (Val.int 1))

/-- A relational row that is live and carries the given key. -/
def liveRowWithKey (r : SqliteRow) (bn addr bt : String) : Bool :=
  rowGet r "business_name" == Val.str bn &&
  rowGet r "address" == Val.str addr &&
  rowGet r "business_type" == Val.str bt &&
  !(rowGet r "deleted" == Val.int 1)

/-- The concrete duplicate-insert scenario: one fully-keyed live record. -/
def sampleDoc : Document :=
  [("business_name", Val.str "Taco Via"),
   ("address", Val.str "1 Main St"),
   ("business_type", Val.str "Restaurant"),
   ("deleted", Val.bool false)]

/-- A trivial concrete serializer for witnesses. -/
def dumpsNone : Val → String := fun _ => ""

/-! ## The rating predictor
(`RestaurantAIPredictor`, src/services/ai_predictor.py)

Floats become ℝ here because the geometry uses `sqrt`/`cos`; the
definitions are therefore noncomputable and concrete instances are
evaluated by `simp`/`norm_num` in the proofs.  Candidate retrieval
(`self.collection.find(query)`, line 129) is a call into the record
store, so the per-restaurant scoring logic is stated over an arbitrary
list of fetched records: every claim checked here quantifies over that
list. -/

section Predictor

open Classical

structure PredictionFeatures where
  latitude : ℝ
  longitude : ℝ
  cuisine_type : Option String
  price_level : Option ℤ
  outdoor_seating : Option Bool
  takeout_available : Option Bool
  delivery_available : Option Bool
  reservations_accepted : Option Bool
  wheelchair_accessible : Option Bool
  good_for_children : Option Bool
  serves_alcohol : Option Bool
  parking_available : Option Bool

/-- The typed view of a fetched restaurant record: exactly the fields
`find_similar_restaurants` reads, each optional because documents are
schemaless (`restaurant.get(...)`). -/
structure RestaurantDoc where
  business_name : Option String
  latitude : Option ℝ
  longitude : Option ℝ
  cuisine_type : Option String
  google_rating : Option ℝ
  google_user_ratings_total : Option ℤ
  outdoor_seating : Option Bool
  takeout_available : Option Bool
  delivery_available : Option Bool
  reservations_accepted : Option Bool
  wheelchair_accessible : Option Bool
  good_for_children : Option Bool
  serves_alcohol : Option Bool
  parking_available : Option Bool

/-- `SimilarRestaurant` dataclass (ai_predictor.py 30-39).  The stored
`cuisine_match` is modelled as its truth value, which is all the program
ever observes of it. -/
structure SimilarRestaurant where
  name : String
  distance_miles : ℝ
  cuisine_match : Bool
  rating : ℝ
  review_count : ℤ
  similarity_score : ℝ
  weight : ℝ

/-- Prediction parameters (ai_predictor.py 48-59). -/
def max_proximity_miles : ℝ := 5.0

def max_cuisine_miles : ℝ := 7.0

def min_similar_restaurants : ℕ := 3

def weight_proximity : ℝ := 0.4

def weight_cuisine_match : ℝ := 0.3

def weight_amenity_match : ℝ := 0.2

def weight_review_volume : ℝ := 0.1

/-- `math.radians`. -/
noncomputable def radians (x : ℝ) : ℝ := x * Real.pi / 180

/-- `calculate_distance` (ai_predictor.py 61-75): flat-Earth
approximation. -/
noncomputable def calculate_distance (lat1 lon1 lat2 lon2 : ℝ) : ℝ :=
  let lat_miles_per_degree : ℝ := 69.0
  let lon_miles_per_degree : ℝ := 69.0 * Real.cos (radians ((lat1 + lat2) / 2))
  let lat_diff := (lat2 - lat1) * lat_miles_per_degree
  let lon_diff := (lon2 - lon1) * lon_miles_per_degree
  Real.sqrt (lat_diff * lat_diff + lon_diff * lon_diff)

/-- `calculate_amenity_similarity` (ai_predictor.py 77-101): fraction of
equal amenity flags among those known on both sides; 0.5 when no flag is
known on both. -/
noncomputable def calculate_amenity_similarity (features : PredictionFeatures)
    (r : RestaurantDoc) : ℝ :=
  let pairs : List (Option Bool × Option Bool) :=
    [(features.outdoor_seating, r.outdoor_seating),
     (features.takeout_available, r.takeout_available),
     (features.delivery_available, r.delivery_available),
     (features.reservations_accepted, r.reservations_accepted),
     (features.wheelchair_accessible, r.wheelchair_accessible),
     (features.good_for_children, r.good_for_children),
     (features.serves_alcohol, r.serves_alcohol),
     (features.parking_available, r.parking_available)]
  let total_comparisons := pairs.countP (fun p => p.1.isSome && p.2.isSome)
  -- the source's `matches` counter (`matches` is a Lean keyword)
  let matchCount := pairs.countP
    (fun p => p.1.isSome && p.2.isSome && (p.1 == p.2))
  if total_comparisons = 0 then 0.5
  else (matchCount : ℝ) / (total_comparisons : ℝ)

/-- Python truthiness of an optional string (`features.cuisine_type and
restaurant_cuisine and ...`): `None` and the empty string are falsy. -/
def pyTruthyOptStr : Option String → Bool
  | none => false
  | some s => !(s == "")

/-- The loop body of `find_similar_restaurants` (ai_predictor.py
131-193) for one fetched record: `none` when the record is skipped
(`continue`), otherwise the scored `SimilarRestaurant`.  The first guard
is Python truthiness of `restaurant.get('latitude')` /
`restaurant.get('longitude')`: missing, `None` or `0.0` coordinates are
all falsy. -/
noncomputable def candidateOf (features : PredictionFeatures)
    (r : RestaurantDoc) : Option SimilarRestaurant :=
  if r.latitude = none ∨ r.latitude = some 0 ∨
      r.longitude = none ∨ r.longitude = some 0 then none
  else
    let distance := calculate_distance features.latitude features.longitude
      (r.latitude.getD 0) (r.longitude.getD 0)
    if distance > max_cuisine_miles then none
    else
      let cuisine_match := pyTruthyOptStr features.cuisine_type &&
        pyTruthyOptStr r.cuisine_type &&
        ((features.cuisine_type.getD "").toLower ==
          (r.cuisine_type.getD "").toLower)
      let max_distance := if cuisine_match then max_cuisine_miles
        else max_proximity_miles
      if distance > max_distance then none
      else
        let amenity_similarity := calculate_amenity_similarity features r
        let proximity_score := max 0 (1.0 - distance / max_distance)
        let cuisine_score : ℝ := if cuisine_match then 1.0 else 0.3
        let review_count := r.google_user_ratings_total.getD 0
        let review_score := min 1.0 ((review_count : ℝ) / 100.0)
        let similarity_score := weight_proximity * proximity_score +
          weight_cuisine_match * cuisine_score +
          weight_amenity_match * amenity_similarity +
          weight_review_volume * review_score
        let weight := similarity_score * (1.0 / max 0.1 distance)
        some { name := r.business_name.getD "Unknown",
               distance_miles := distance,
               cuisine_match := cuisine_match,
               rating := r.google_rating.getD 3.5,
               review_count := review_count,
               similarity_score := similarity_score,
               weight := weight }

/-- `find_similar_restaurants` over the fetched records: score each,
then sort by similarity descending (stable, like `list.sort` with
`reverse=True`). -/
noncomputable def find_similar_restaurants (features : PredictionFeatures)
    (restaurants : List RestaurantDoc) : List SimilarRestaurant :=
  (restaurants.filterMap (candidateOf features)).mergeSort
    (fun a b => decide (b.similarity_score ≤ a.similarity_score))

/-- `predict_rating` (ai_predictor.py 205-256). -/
noncomputable def predict_rating (features : PredictionFeatures)
    (restaurants : List RestaurantDoc) :
    ℝ × String × List SimilarRestaurant :=
  let similar_restaurants := find_similar_restaurants features restaurants
  if similar_restaurants.length < min_similar_restaurants then
    (3.7, "Low - insufficient nearby data", similar_restaurants)
  else
    let total_weighted_rating :=
      (similar_restaurants.map (fun r => r.rating * r.weight)).sum
    let total_weight := (similar_restaurants.map (fun r => r.weight)).sum
    let cuisine_matches := similar_restaurants.countP (fun r => r.cuisine_match)
    let proximity_matches := similar_restaurants.countP
      (fun r => decide (r.distance_miles ≤ max_proximity_miles))
    let predicted_rating := if total_weight = 0 then 3.7
      else total_weighted_rating / total_weight
    let confidence :=
      if cuisine_matches ≥ 3 ∧ proximity_matches ≥ 2 then
        "High - strong cuisine and proximity matches"
      else if cuisine_matches ≥ 2 ∨ proximity_matches ≥ 3 then
        "Medium - good local or cuisine data"
      else if similar_restaurants.length ≥ 5 then
        "Medium - sufficient nearby data"
      else "Low - limited comparison data"
    (max 1.0 (min 5.0 predicted_rating), confidence, similar_restaurants)

/-- Concrete prediction target used by the witnesses. -/
def features1 : PredictionFeatures :=
  { latitude := 1, longitude := 1, cuisine_type := none, price_level := none,
    outdoor_seating := none, takeout_available := none,
    delivery_available := none, reservations_accepted := none,
    wheelchair_accessible := none, good_for_children := none,
    serves_alcohol := none, parking_available := none }

/-- A rated restaurant at the same coordinate as `features1`. -/
def rest0 : RestaurantDoc :=
  { business_name := none, latitude := some 1, longitude := some 1,
    cuisine_type := none, google_rating := some 4,
    google_user_ratings_total := none,
    outdoor_seating := none, takeout_available := none,
    delivery_available := none, reservations_accepted := none,
    wheelchair_accessible := none, good_for_children := none,
    serves_alcohol := none, parking_available := none }

/-- The candidate `candidateOf features1 rest0` evaluates to. -/
noncomputable def cand0 : SimilarRestaurant :=
  { name := "Unknown", distance_miles := 0, cuisine_match := false,
    rating := 4, review_count := 0, similarity_score := 59 / 100,
    weight := 59 / 10 }

/-- Like `rest0` but with a large negative stored review count. -/
def restNeg : RestaurantDoc :=
  { business_name := none, latitude := some 1, longitude := some 1,
    cuisine_type := none, google_rating := some 4,
    google_user_ratings_total := some (-10000),
    outdoor_seating := none, takeout_available := none,
    delivery_available := none, reservations_accepted := none,
    wheelchair_accessible := none, good_for_children := none,
    serves_alcohol := none, parking_available := none }

/-- The candidate `candidateOf features1 restNeg` evaluates to: the
unfloored review term drags the similarity score negative. -/
noncomputable def candNeg : SimilarRestaurant :=
  { name := "Unknown", distance_miles := 0, cuisine_match := false,
    rating := 4, review_count := -10000, similarity_score := -941 / 100,
    weight := -941 / 10 }

end Predictor

-- ===================================================================
-- Theorems
-- ===================================================================

/-- C2: for every filter and limit, if the document backend is reachable
and its query succeeds, `find_documents` returns exactly the document
backend's result — including the empty list — and the result does not
depend on the relational backend at all (it is not consulted); the
relational backend answers exactly when the document backend is
unavailable or its query raised; when neither backend can answer the
result is the empty list rather than an exception. -/
theorem findDocuments_backend_policy (query : Query) (limit : ℕ)
    (docs sdocs : List Document)
    (mongoFind sqliteFind : Query → ℕ → Except Unit (List Document)) :
    (∀ sa sf, findDocuments query limit true
        (fun _ _ => Except.ok docs) sa sf = docs) ∧
    (findDocuments query limit false mongoFind true
        (fun _ _ => Except.ok sdocs) = sdocs) ∧
    (findDocuments query limit true (fun _ _ => Except.error ()) true
        (fun _ _ => Except.ok sdocs) = sdocs) ∧
    (findDocuments query limit false mongoFind false sqliteFind = []) ∧
    (findDocuments query limit true (fun _ _ => Except.error ()) false
        sqliteFind = []) ∧
    (findDocuments query limit false mongoFind true
        (fun _ _ => Except.error ()) = []) ∧
    (findDocuments query limit true (fun _ _ => Except.error ()) true
        (fun _ _ => Except.error ()) = []) := by
  refine ⟨fun sa sf => rfl, rfl, rfl, ?_, rfl, rfl, rfl⟩
  cases sqliteFind query limit <;> rfl

/-- C5 counterexample: with both backends reachable, the document backend
deleting 5 rows and the relational backend deleting 3, `delete_many`
returns 3 — the smaller count, not the larger. -/
theorem deleteMany_count_not_max_counterexample :
    deleteManyCount true (Except.ok 5) true (Except.ok 3) = 3 ∧
    (0 : ℕ) < 5 ∧ (0 : ℕ) < 3 ∧
    deleteManyCount true (Except.ok 5) true (Except.ok 3) ≠ max 5 3 := by
  decide

/-- C5 amended: when both backends are reachable and each deletes a
positive number of rows, `delete_many` returns the relational backend's
count — the combination rule is "relational count when positive,
otherwise document count", not the maximum of the two. -/
theorem deleteMany_count_sqlite_priority (m s : ℕ) (_hm : 0 < m) (hs : 0 < s) :
    deleteManyCount true (Except.ok m) true (Except.ok s) = s := by
  simp [deleteManyCount, hs]

theorem deleteMany_count_sqlite_priority_witness :
    deleteManyCount true (Except.ok 5) true (Except.ok 3) = 3 :=
  deleteMany_count_sqlite_priority 5 3 (by decide) (by decide)

/-! ### Heap helper lemmas -/

theorem readRef_append_of_lt (h h2 : Heap) (r : ℕ) (hr : r < h.length) :
    readRef (h ++ h2) r = readRef h r := by
  simp [readRef, List.getD_eq_getElem?_getD, List.getElem?_append, hr]

theorem readRef_writeRef_ne (h : Heap) (w r : ℕ) (d : Document)
    (hne : r ≠ w) : readRef (writeRef h w d) r = readRef h r := by
  simp [readRef, writeRef, List.getD_eq_getElem?_getD,
    List.getElem?_set_ne (Ne.symm hne)]

theorem mongoInsertOne_heap_read (cnt : ℕ) (col : List Document) (h : Heap)
    (rc r : ℕ) (hne : r ≠ rc) :
    readRef (mongoInsertOne cnt col h rc).2.2.1 r = readRef h r := by
  unfold mongoInsertOne
  dsimp only
  split
  · rfl
  · exact readRef_writeRef_ne _ _ _ _ hne

theorem mongoInsertOne_heap_length (cnt : ℕ) (col : List Document) (h : Heap)
    (rc : ℕ) : (mongoInsertOne cnt col h rc).2.2.1.length = h.length := by
  unfold mongoInsertOne
  dsimp only
  split
  · rfl
  · exact List.length_set h rc _

theorem jsonSerializeStep_read (dumps : Val → String) (d r : ℕ)
    (hne : r ≠ d) (hh : Heap) (f : String) :
    readRef (jsonSerializeStep dumps d hh f) r = readRef hh r := by
  unfold jsonSerializeStep
  dsimp only
  split
  · exact readRef_writeRef_ne _ _ _ _ hne
  · rfl

theorem foldl_jsonSerializeStep_read (dumps : Val → String) (d r : ℕ)
    (hne : r ≠ d) (fs : List String) :
    ∀ hh : Heap,
      readRef (fs.foldl (jsonSerializeStep dumps d) hh) r = readRef hh r := by
  induction fs with
  | nil => intro hh; rfl
  | cons f fs ih =>
    intro hh
    rw [List.foldl_cons, ih, jsonSerializeStep_read dumps d r hne]

/-- The final heap of `_insert_sqlite_document` is the serialization
loop's heap, whichever exit the function takes. -/
theorem insertSqlite_heap_eq (dumps : Val → String) (h : Heap)
    (tbl : List SqliteRow) (docRef : ℕ) :
    (insertSqliteDocument dumps h tbl docRef).1 =
      jsonFields.foldl (jsonSerializeStep dumps h.length)
        (h ++ [readRef h docRef]) := by
  unfold insertSqliteDocument
  dsimp only [pyCopy, allocRef]
  split
  · rfl
  · split <;> rfl

theorem insertSqlite_heap_read (dumps : Val → String) (h : Heap)
    (tbl : List SqliteRow) (docRef r : ℕ) (hr : r < h.length) :
    readRef (insertSqliteDocument dumps h tbl docRef).1 r = readRef h r := by
  rw [insertSqlite_heap_eq,
    foldl_jsonSerializeStep_read dumps h.length r (Nat.ne_of_lt hr),
    readRef_append_of_lt h _ r hr]

theorem mongoStep_heap_read (st : DBState) (h : Heap) (docRef r : ℕ)
    (hr : r < h.length) :
    readRef (mongoStep st h docRef).2.1 r = readRef h r := by
  unfold mongoStep
  dsimp only [pyCopy, allocRef]
  split
  · rw [mongoInsertOne_heap_read _ _ _ _ r (Nat.ne_of_lt hr),
      readRef_append_of_lt h _ r hr]
  · rfl

theorem mongoStep_heap_length (st : DBState) (h : Heap) (docRef : ℕ) :
    h.length ≤ (mongoStep st h docRef).2.1.length := by
  unfold mongoStep
  dsimp only [pyCopy, allocRef]
  split
  · rw [mongoInsertOne_heap_length, List.length_append]
    omega
  · exact Nat.le_refl _

theorem sqliteStep_heap_read (dumps : Val → String) (st : DBState)
    (h : Heap) (docRef r : ℕ) (hr : r < h.length) :
    readRef (sqliteStep dumps st h docRef).2.1 r = readRef h r := by
  unfold sqliteStep
  dsimp only
  split
  · exact insertSqlite_heap_read dumps h st.sqlite_table docRef r hr
  · rfl

/-- C10: `insert_document` never mutates the caller's dict: the document
backend's `insert_one` (which adds an `_id` to the dict it is handed) and
the relational insert's JSON serialization each receive a `.copy()`, so
after the call the caller's object reads back unchanged from the heap. -/
theorem insertDocument_preserves_caller (dumps : Val → String) (st : DBState)
    (h : Heap) (r : ℕ) (hr : r < h.length) :
    readRef (insertDocument dumps st h r).2.1 r = readRef h r := by
  show readRef (sqliteStep dumps (mongoStep st h r).1
      (mongoStep st h r).2.1 r).2.1 r = readRef h r
  rw [sqliteStep_heap_read dumps _ _ r r
      (Nat.lt_of_lt_of_le hr (mongoStep_heap_length st h r)),
    mongoStep_heap_read st h r r hr]

theorem insertDocument_preserves_caller_witness :
    0 < ([[("business_name", Val.str "A")]] : Heap).length ∧
    readRef (insertDocument dumpsNone initialDBState
        [[("business_name", Val.str "A")]] 0).2.1 0 =
      readRef [[("business_name", Val.str "A")]] 0 :=
  ⟨by decide,
    insertDocument_preserves_caller dumpsNone initialDBState
      [[("business_name", Val.str "A")]] 0 (by decide)⟩

/-! ### Relational uniqueness invariant -/

/-- Either the relational insert fails leaving the table unchanged, or it
succeeds and the new table is the old one with every row conflicting with
the inserted row removed, plus the inserted row. -/
theorem insertSqlite_result_cases (dumps : Val → String) (h : Heap)
    (tbl : List SqliteRow) (docRef : ℕ) :
    (insertSqliteDocument dumps h tbl docRef).2 = (tbl, false) ∨
    ∃ row, (insertSqliteDocument dumps h tbl docRef).2 =
      ((tbl.filter (fun r0 => !(sqliteUniqueConflict r0 row))) ++ [row],
        true) := by
  unfold insertSqliteDocument
  dsimp only [pyCopy, allocRef]
  split
  · exact Or.inl rfl
  · split
    · exact Or.inl rfl
    · exact Or.inr ⟨_, rfl⟩

theorem insertSqlite_table_pairwise (dumps : Val → String) (h : Heap)
    (tbl : List SqliteRow) (docRef : ℕ)
    (hp : tbl.Pairwise (fun r1 r2 => sqliteUniqueConflict r1 r2 = false)) :
    ((insertSqliteDocument dumps h tbl docRef).2.1).Pairwise
      (fun r1 r2 => sqliteUniqueConflict r1 r2 = false) := by
  rcases insertSqlite_result_cases dumps h tbl docRef with hc | ⟨row, hc⟩
  · rw [hc]
    exact hp
  · rw [hc]
    dsimp only
    rw [List.pairwise_append]
    refine ⟨List.Pairwise.sublist (List.filter_sublist tbl) hp, by simp, ?_⟩
    intro a ha b hb
    rw [List.mem_singleton] at hb
    subst hb
    have := (List.mem_filter.mp ha).2
    simpa using this

theorem mongoStep_table (st : DBState) (h : Heap) (docRef : ℕ) :
    ((mongoStep st h docRef).1).sqlite_table = st.sqlite_table := by
  unfold mongoStep
  dsimp only
  split <;> rfl

theorem sqliteStep_table_pairwise (dumps : Val → String) (st : DBState)
    (h : Heap) (docRef : ℕ)
    (hp : st.sqlite_table.Pairwise
      (fun r1 r2 => sqliteUniqueConflict r1 r2 = false)) :
    ((sqliteStep dumps st h docRef).1).sqlite_table.Pairwise
      (fun r1 r2 => sqliteUniqueConflict r1 r2 = false) := by
  unfold sqliteStep
  dsimp only
  split
  · exact insertSqlite_table_pairwise dumps h st.sqlite_table docRef hp
  · exact hp

theorem insertDocument_table_pairwise (dumps : Val → String) (st : DBState)
    (h : Heap) (r : ℕ)
    (hp : st.sqlite_table.Pairwise
      (fun r1 r2 => sqliteUniqueConflict r1 r2 = false)) :
    ((insertDocument dumps st h r).1).sqlite_table.Pairwise
      (fun r1 r2 => sqliteUniqueConflict r1 r2 = false) := by
  show ((sqliteStep dumps (mongoStep st h r).1
      (mongoStep st h r).2.1 r).1).sqlite_table.Pairwise _
  exact sqliteStep_table_pairwise dumps _ _ r
    (by rw [mongoStep_table]; exact hp)

theorem insertDocs_table_pairwise (dumps : Val → String) (ds : List Document) :
    ∀ st : DBState,
      st.sqlite_table.Pairwise
        (fun r1 r2 => sqliteUniqueConflict r1 r2 = false) →
      ((insertDocs dumps st ds)).sqlite_table.Pairwise
        (fun r1 r2 => sqliteUniqueConflict r1 r2 = false) := by
  induction ds with
  | nil => intro st hp; exact hp
  | cons d ds ih =>
    intro st hp
    rw [insertDocs, List.foldl_cons]
    exact ih _ (insertDocument_table_pairwise dumps st [d] 0 hp)

theorem liveRowWithKey_conflict (r1 r2 : SqliteRow) (bn addr bt : String)
    (h1 : liveRowWithKey r1 bn addr bt = true)
    (h2 : liveRowWithKey r2 bn addr bt = true) :
    sqliteUniqueConflict r1 r2 = true := by
  simp only [liveRowWithKey, Bool.and_eq_true, beq_iff_eq] at h1 h2
  obtain ⟨⟨⟨e1bn, e1ad⟩, _⟩, _⟩ := h1
  obtain ⟨⟨⟨e2bn, e2ad⟩, _⟩, _⟩ := h2
  simp only [sqliteUniqueConflict, Bool.and_eq_true, beq_iff_eq]
  rw [e1bn, e2bn, e1ad, e2ad]
  refine ⟨⟨⟨?_, ?_⟩, ?_⟩, ?_⟩ <;> simp [sqlEq, Val.toNum]

theorem countP_liveKey_le_one (bn addr bt : String) :
    ∀ l : List SqliteRow,
      l.Pairwise (fun r1 r2 => sqliteUniqueConflict r1 r2 = false) →
      l.countP (fun r0 => liveRowWithKey r0 bn addr bt) ≤ 1 := by
  intro l
  induction l with
  | nil => intro _; simp
  | cons x l ih =>
    intro hp
    rw [List.pairwise_cons] at hp
    rw [List.countP_cons]
    by_cases hx : liveRowWithKey x bn addr bt = true
    · have hz : l.countP (fun r0 => liveRowWithKey r0 bn addr bt) = 0 := by
        rw [List.countP_eq_zero]
        intro a ha hla
        have := liveRowWithKey_conflict x a bn addr bt hx hla
        rw [hp.1 a ha] at this
        exact Bool.false_ne_true this
      simp [hx, hz]
    · have hx' : (liveRowWithKey x bn addr bt) = false :=
        Bool.not_eq_true _ ▸ Bool.of_not_eq_true hx
      simp [hx']
      exact Nat.le_trans (Nat.le_refl _) (ih hp.2)

/-- C6 counterexample: starting from empty backends, inserting the same
fully-keyed record twice leaves the document backend with two live
records carrying the same `(business_name, address, business_type)` key —
the document-backend insert appends (plain `insert_one` on a collection
the manager creates no unique index for) and never replaces. -/
theorem insertDocument_mongo_duplicate_counterexample :
    ((insertDocs dumpsNone initialDBState
        [sampleDoc, sampleDoc]).mongo_collection.countP
      (fun doc => liveDocWithKey doc "Taco Via" "1 Main St" "Restaurant"))
      = 2 := by
  decide

/-- C6 amended: the uniqueness invariant holds for the relational
backend: after any sequence of `insert_document` calls from the empty
store, the relational table holds at most one live row per
`(business_name, address, business_type)` key (a consequence of its
`UNIQUE(business_name, address)` constraint), and a successful relational
insert replaces every row that conflicts with the new row on that
constraint rather than duplicating it.  The document backend gives no
such guarantee (see the counterexample). -/
theorem insertSqlite_unique_invariant (dumps : Val → String)
    (ds : List Document) (bn addr bt : String) :
    (((insertDocs dumps initialDBState ds)).sqlite_table.countP
      (fun r0 => liveRowWithKey r0 bn addr bt) ≤ 1) ∧
    (∀ (h : Heap) (tbl : List SqliteRow) (docRef : ℕ),
      (insertSqliteDocument dumps h tbl docRef).2.2 = true →
      ∃ row, (insertSqliteDocument dumps h tbl docRef).2.1 =
        (tbl.filter (fun r0 => !(sqliteUniqueConflict r0 row))) ++ [row]) := by
  constructor
  · exact countP_liveKey_le_one bn addr bt _
      (insertDocs_table_pairwise dumps ds initialDBState (by simp [initialDBState]))
  · intro h tbl docRef hs
    rcases insertSqlite_result_cases dumps h tbl docRef with hc | ⟨row, hc⟩
    · rw [hc] at hs
      exact absurd hs (by simp)
    · exact ⟨row, by rw [hc]⟩

theorem insertSqlite_unique_invariant_witness :
    (((insertDocs dumpsNone initialDBState
        [sampleDoc, sampleDoc])).sqlite_table.countP
      (fun r0 => liveRowWithKey r0 "Taco Via" "1 Main St" "Restaurant") ≤ 1) ∧
    (∃ row, (insertSqliteDocument dumpsNone [sampleDoc] [] 0).2.1 =
      (([] : List SqliteRow).filter
        (fun r0 => !(sqliteUniqueConflict r0 row))) ++ [row]) :=
  ⟨(insertSqlite_unique_invariant dumpsNone [sampleDoc, sampleDoc]
      "Taco Via" "1 Main St" "Restaurant").1,
    (insertSqlite_unique_invariant dumpsNone [] "x" "y" "z").2
      [sampleDoc] [] 0 (by decide)⟩

/-- C7: the predictor's grade table and the display grade table are not
the same function: at rating 3.0 the predictor grades "B-" while the
display table grades "C-". -/
theorem grade_tables_differ :
    ∃ r : ℚ, 1 ≤ r ∧ r ≤ 5 ∧ rating_to_grade (some r) ≠ some (predictGrade r) := by
  refine ⟨3, by norm_num, by norm_num, ?_⟩
  have h1 : predictGrade 3 = "B-" := by
    simp only [predictGrade]
    norm_num
  have h2 : rating_to_grade (some 3) = some "C-" := by
    simp only [rating_to_grade]
    norm_num [min_def, max_def]
  rw [h1, h2]
  decide

/-- C9: in the relational filter engine, `{field: {$ne: v}}` with `v`
non-null selects exactly the rows whose `field` column is NULL or holds a
value different from `v` as the engine receives it — `bindVal v`, since
the operand reaches sqlite3 through parameter binding, which converts a
Python bool to 1/0 (for which Python's own `True == 1` makes the bound
value interchangeable with `v`) and passes str/int/float through
unchanged (absent-or-unequal, mirroring the document store's `$ne`).
`{field: {$ne: null}}` selects exactly the rows whose `field` column is
non-NULL. -/
theorem findSqlite_ne_semantics (tbl : List SqliteRow) (field : String)
    (v : Val) (hv : v ≠ Val.null) (row : SqliteRow) :
    (row ∈ findSqliteDocuments tbl [(field, QVal.ops [("$ne", v)])] 0 ↔
      row ∈ tbl ∧ (rowGet row field = Val.null ∨
        sqlEq (rowGet row field) (bindVal v) = false)) ∧
    (row ∈ findSqliteDocuments tbl [(field, QVal.ops [("$ne", Val.null)])] 0 ↔
      row ∈ tbl ∧ rowGet row field ≠ Val.null) := by
  constructor
  · cases v with
    | null => exact absurd rfl hv
    | bool b =>
        simp [findSqliteDocuments, findWhereConds, condsForEntry, condsForOp,
          bindVal, evalCond, List.mem_filter, Bool.or_eq_true, beq_iff_eq,
          Bool.not_eq_true']
    | int n =>
        simp [findSqliteDocuments, findWhereConds, condsForEntry, condsForOp,
          bindVal, evalCond, List.mem_filter, Bool.or_eq_true, beq_iff_eq,
          Bool.not_eq_true']
    | real q =>
        simp [findSqliteDocuments, findWhereConds, condsForEntry, condsForOp,
          bindVal, evalCond, List.mem_filter, Bool.or_eq_true, beq_iff_eq,
          Bool.not_eq_true']
    | str s =>
        simp [findSqliteDocuments, findWhereConds, condsForEntry, condsForOp,
          bindVal, evalCond, List.mem_filter, Bool.or_eq_true, beq_iff_eq,
          Bool.not_eq_true']
  · simp [findSqliteDocuments, findWhereConds, condsForEntry, condsForOp,
      evalCond, List.mem_filter, Bool.not_eq_true', beq_iff_eq]

theorem findSqlite_ne_semantics_witness :
    [("x", Val.int 2)] ∈ findSqliteDocuments
      [[("x", Val.int 1)], [("x", Val.int 2)], []]
      [("x", QVal.ops [("$ne", Val.int 1)])] 0 :=
  ((findSqlite_ne_semantics [[("x", Val.int 1)], [("x", Val.int 2)], []]
      "x" (Val.int 1) (by decide) [("x", Val.int 2)]).1).mpr (by decide)

/-! ### Predictor helper lemmas -/

theorem calculate_distance_self (la lo : ℝ) :
    calculate_distance la lo la lo = 0 := by
  simp [calculate_distance]

theorem amenity_similarity_nonneg (features : PredictionFeatures)
    (r : RestaurantDoc) : 0 ≤ calculate_amenity_similarity features r := by
  unfold calculate_amenity_similarity
  dsimp only
  split
  · norm_num
  · exact div_nonneg (Nat.cast_nonneg _) (Nat.cast_nonneg _)

/-- C1: with fewer than `min_similar_restaurants` retained candidates,
`predict_rating` returns exactly the default 3.7 with confidence
"Low - insufficient nearby data", and the candidate list it returns is
exactly the list the candidate search produced — not forced to empty. -/
theorem predictRating_default_floor (features : PredictionFeatures)
    (restaurants : List RestaurantDoc)
    (hlen : (find_similar_restaurants features restaurants).length <
      min_similar_restaurants) :
    predict_rating features restaurants =
      (3.7, "Low - insufficient nearby data",
        find_similar_restaurants features restaurants) := by
  unfold predict_rating
  dsimp only
  rw [if_pos hlen]

theorem predictRating_default_floor_witness :
    predict_rating features1 [] = (3.7, "Low - insufficient nearby data", []) := by
  have h0 : find_similar_restaurants features1 [] = [] := by
    simp [find_similar_restaurants]
  have h1 : (find_similar_restaurants features1 []).length <
      min_similar_restaurants := by
    rw [h0]
    simp [min_similar_restaurants]
  have h2 := predictRating_default_floor features1 [] h1
  rw [h0] at h2
  exact h2

/-- C4: the rating returned by `predict_rating` always lies in
[1.0, 5.0], whatever the stored candidate ratings are: the default path
returns 3.7 and the weighted-average path is clamped. -/
theorem predictRating_bounds (features : PredictionFeatures)
    (restaurants : List RestaurantDoc) :
    1 ≤ (predict_rating features restaurants).1 ∧
    (predict_rating features restaurants).1 ≤ 5 := by
  unfold predict_rating
  dsimp only
  split
  · constructor <;> norm_num
  · constructor
    · exact le_max_of_le_left (by norm_num)
    · exact max_le (by norm_num) (le_trans (min_le_left _ _) (by norm_num))

/-- C3: every candidate retained by the candidate search lies within
`max_cuisine_miles` (7.0) of the target when its distance is recomputed
with the same flat-Earth formula, and every retained candidate whose
`cuisine_match` is false additionally lies within `max_proximity_miles`
(5.0) — a same-cuisine candidate may be retained farther away than a
non-matching one, and no candidate outside its effective radius is ever
returned. -/
theorem findSimilar_distance_sound (features : PredictionFeatures)
    (restaurants : List RestaurantDoc) (c : SimilarRestaurant)
    (hc : c ∈ find_similar_restaurants features restaurants) :
    (∃ r ∈ restaurants, c.distance_miles =
        calculate_distance features.latitude features.longitude
          (r.latitude.getD 0) (r.longitude.getD 0)) ∧
    c.distance_miles ≤ max_cuisine_miles ∧
    (c.cuisine_match = false → c.distance_miles ≤ max_proximity_miles) := by
  simp only [find_similar_restaurants, List.mem_mergeSort,
    List.mem_filterMap] at hc
  obtain ⟨r, hr, hcr⟩ := hc
  unfold candidateOf at hcr
  dsimp only at hcr
  split at hcr
  next => exact absurd hcr (by simp)
  next h1 =>
    split at hcr
    next => exact absurd hcr (by simp)
    next h2 =>
      by_cases hcm : (pyTruthyOptStr features.cuisine_type &&
          pyTruthyOptStr r.cuisine_type &&
          ((features.cuisine_type.getD "").toLower ==
            (r.cuisine_type.getD "").toLower)) = true
      · rw [if_pos hcm] at hcr
        split at hcr
        next => exact absurd hcr (by simp)
        next h3 =>
          rw [Option.some_inj] at hcr
          subst hcr
          refine ⟨⟨r, hr, rfl⟩, not_lt.mp h2, fun hcmf => ?_⟩
          dsimp only at hcmf
          rw [hcm] at hcmf
          exact absurd hcmf (by simp)
      · rw [if_neg hcm] at hcr
        split at hcr
        next => exact absurd hcr (by simp)
        next h3 =>
          rw [Option.some_inj] at hcr
          subst hcr
          have hle := not_lt.mp h3
          exact ⟨⟨r, hr, rfl⟩,
            le_trans hle (by norm_num [max_proximity_miles, max_cuisine_miles]),
            fun _ => hle⟩

/-- C8 amended: provided every fetched record's stored review count is
nonnegative (the real data invariant; the code itself puts no floor on
the review term), every retained candidate has `similarity_score ≥ 0.09`
— the cuisine component alone contributes `0.3·0.3` even for a non-match
— and `weight > 0`; hence whenever at least `min_similar_restaurants`
candidates are retained the total weight is strictly positive, so the
weighted-average division is well-defined and the `total_weight == 0`
fallback in `predict_rating` is not taken.  Without the nonnegativity
assumption the property fails (see the counterexample). -/
theorem findSimilar_weights_positive (features : PredictionFeatures)
    (restaurants : List RestaurantDoc)
    (hrc : ∀ r ∈ restaurants, (0 : ℤ) ≤ r.google_user_ratings_total.getD 0) :
    (∀ c ∈ find_similar_restaurants features restaurants,
      (0.09 : ℝ) ≤ c.similarity_score ∧ 0 < c.weight) ∧
    (min_similar_restaurants ≤
        (find_similar_restaurants features restaurants).length →
      0 < ((find_similar_restaurants features restaurants).map
        (fun c => c.weight)).sum) := by
  have hmain : ∀ c ∈ find_similar_restaurants features restaurants,
      (0.09 : ℝ) ≤ c.similarity_score ∧ 0 < c.weight := by
    intro c hc
    simp only [find_similar_restaurants, List.mem_mergeSort,
      List.mem_filterMap] at hc
    obtain ⟨r, hr, hcr⟩ := hc
    have hrev : (0 : ℤ) ≤ r.google_user_ratings_total.getD 0 := hrc r hr
    unfold candidateOf at hcr
    dsimp only at hcr
    split at hcr
    next => exact absurd hcr (by simp)
    next h1 =>
      split at hcr
      next => exact absurd hcr (by simp)
      next h2 =>
        by_cases hcm : (pyTruthyOptStr features.cuisine_type &&
            pyTruthyOptStr r.cuisine_type &&
            ((features.cuisine_type.getD "").toLower ==
              (r.cuisine_type.getD "").toLower)) = true
        · rw [if_pos hcm] at hcr
          split at hcr
          next => exact absurd hcr (by simp)
          next h3 =>
            rw [Option.some_inj] at hcr
            subst hcr
            dsimp only
            have hprox : (0 : ℝ) ≤ weight_proximity *
                (max 0 (1.0 - calculate_distance features.latitude
                  features.longitude (r.latitude.getD 0) (r.longitude.getD 0) /
                  max_cuisine_miles)) :=
              mul_nonneg (by norm_num [weight_proximity]) (le_max_left 0 _)
            have hamen : (0 : ℝ) ≤ weight_amenity_match *
                calculate_amenity_similarity features r :=
              mul_nonneg (by norm_num [weight_amenity_match])
                (amenity_similarity_nonneg features r)
            have hrev2 : (0 : ℝ) ≤ weight_review_volume *
                (min 1.0 ((r.google_user_ratings_total.getD 0 : ℝ) / 100.0)) := by
              refine mul_nonneg (by norm_num [weight_review_volume])
                (le_min (by norm_num) (div_nonneg ?_ (by norm_num)))
              exact_mod_cast hrev
            have hcs : (0.09 : ℝ) ≤ weight_cuisine_match * 1.0 := by
              norm_num [weight_cuisine_match]
            have hsim : (0.09 : ℝ) ≤ weight_proximity *
                (max 0 (1.0 - calculate_distance features.latitude
                  features.longitude (r.latitude.getD 0) (r.longitude.getD 0) /
                  max_cuisine_miles)) + weight_cuisine_match * 1.0 +
                weight_amenity_match * calculate_amenity_similarity features r +
                weight_review_volume *
                  (min 1.0 ((r.google_user_ratings_total.getD 0 : ℝ) / 100.0)) := by
              linarith
            refine ⟨hsim, mul_pos (lt_of_lt_of_le (by norm_num) hsim)
              (div_pos (by norm_num)
                (lt_of_lt_of_le (by norm_num) (le_max_left 0.1 _)))⟩
        · rw [if_neg hcm] at hcr
          split at hcr
          next => exact absurd hcr (by simp)
          next h3 =>
            rw [Option.some_inj] at hcr
            subst hcr
            dsimp only
            have hprox : (0 : ℝ) ≤ weight_proximity *
                (max 0 (1.0 - calculate_distance features.latitude
                  features.longitude (r.latitude.getD 0) (r.longitude.getD 0) /
                  max_proximity_miles)) :=
              mul_nonneg (by norm_num [weight_proximity]) (le_max_left 0 _)
            have hamen : (0 : ℝ) ≤ weight_amenity_match *
                calculate_amenity_similarity features r :=
              mul_nonneg (by norm_num [weight_amenity_match])
                (amenity_similarity_nonneg features r)
            have hrev2 : (0 : ℝ) ≤ weight_review_volume *
                (min 1.0 ((r.google_user_ratings_total.getD 0 : ℝ) / 100.0)) := by
              refine mul_nonneg (by norm_num [weight_review_volume])
                (le_min (by norm_num) (div_nonneg ?_ (by norm_num)))
              exact_mod_cast hrev
            have hcs : (0.09 : ℝ) ≤ weight_cuisine_match * 0.3 := by
              norm_num [weight_cuisine_match]
            have hsim : (0.09 : ℝ) ≤ weight_proximity *
                (max 0 (1.0 - calculate_distance features.latitude
                  features.longitude (r.latitude.getD 0) (r.longitude.getD 0) /
                  max_proximity_miles)) + weight_cuisine_match * 0.3 +
                weight_amenity_match * calculate_amenity_similarity features r +
                weight_review_volume *
                  (min 1.0 ((r.google_user_ratings_total.getD 0 : ℝ) / 100.0)) := by
              linarith
            refine ⟨hsim, mul_pos (lt_of_lt_of_le (by norm_num) hsim)
              (div_pos (by norm_num)
                (lt_of_lt_of_le (by norm_num) (le_max_left 0.1 _)))⟩
  refine ⟨hmain, fun hlen => ?_⟩
  have hne : find_similar_restaurants features restaurants ≠ [] := by
    intro h0
    rw [h0] at hlen
    simp [min_similar_restaurants] at hlen
  refine List.sum_pos _ ?_ ?_
  · intro x hx
    rw [List.mem_map] at hx
    obtain ⟨c, hc, rfl⟩ := hx
    exact (hmain c hc).2
  · intro hm0
    exact hne (List.map_eq_nil_iff.mp hm0)

theorem candidateOf_features1_rest0 : candidateOf features1 rest0 = some cand0 := by
  simp only [candidateOf, features1, rest0, cand0]
  norm_num [calculate_distance_self, max_cuisine_miles, max_proximity_miles,
    pyTruthyOptStr, calculate_amenity_similarity, weight_proximity,
    weight_cuisine_match, weight_amenity_match, weight_review_volume,
    min_def, max_def, List.countP_cons, List.countP_nil,
    SimilarRestaurant.mk.injEq, Option.some_ne_none]

theorem findSimilar_features1_rest0 :
    find_similar_restaurants features1 [rest0] = [cand0] := by
  simp [find_similar_restaurants, candidateOf_features1_rest0]

theorem candidateOf_features1_restNeg :
    candidateOf features1 restNeg = some candNeg := by
  simp only [candidateOf, features1, restNeg, candNeg]
  norm_num [calculate_distance_self, max_cuisine_miles, max_proximity_miles,
    pyTruthyOptStr, calculate_amenity_similarity, weight_proximity,
    weight_cuisine_match, weight_amenity_match, weight_review_volume,
    min_def, max_def, List.countP_cons, List.countP_nil,
    SimilarRestaurant.mk.injEq, Option.some_ne_none]

theorem findSimilar_features1_restNeg :
    find_similar_restaurants features1 [restNeg] = [candNeg] := by
  simp [find_similar_restaurants, candidateOf_features1_restNeg]

theorem findSimilar_distance_sound_witness :
    cand0 ∈ find_similar_restaurants features1 [rest0] ∧
    ((∃ r ∈ [rest0], cand0.distance_miles =
        calculate_distance features1.latitude features1.longitude
          (r.latitude.getD 0) (r.longitude.getD 0)) ∧
      cand0.distance_miles ≤ max_cuisine_miles ∧
      (cand0.cuisine_match = false →
        cand0.distance_miles ≤ max_proximity_miles)) := by
  have hmem : cand0 ∈ find_similar_restaurants features1 [rest0] := by
    rw [findSimilar_features1_rest0]
    exact List.mem_singleton.mpr rfl
  exact ⟨hmem, findSimilar_distance_sound features1 [rest0] cand0 hmem⟩

/-- C8 counterexample: a retained candidate built from a record with a
large negative stored review count has `similarity_score` below 0.09 —
indeed negative — and negative `weight`: the review term
`0.1·min(1, count/100)` has no lower floor, unlike the proximity term. -/
theorem findSimilar_negative_reviews_counterexample :
    find_similar_restaurants features1 [restNeg] = [candNeg] ∧
    candNeg.similarity_score < 0.09 ∧ candNeg.weight < 0 := by
  refine ⟨?_, by norm_num [candNeg], by norm_num [candNeg]⟩
  simp [find_similar_restaurants, candidateOf_features1_restNeg]

theorem findSimilar_weights_positive_witness :
    (0.09 : ℝ) ≤ cand0.similarity_score ∧ 0 < cand0.weight := by
  have hmem : cand0 ∈ find_similar_restaurants features1 [rest0] := by
    rw [findSimilar_features1_rest0]
    exact List.mem_singleton.mpr rfl
  exact (findSimilar_weights_positive features1 [rest0]
    (by intro r hr; rw [List.mem_singleton] at hr; subst hr; simp [rest0])).1
    cand0 hmem
